import Mathlib

/-!
Verification of the `terraform generate` core of the auth0-cli repository
(file `internal/cli/terraform.go`): the import-data aggregator
`fetchImportData`, the config-file generator `generateTerraformConfigFiles`
with its helpers `createMainFile` / `createImportFile`, and the command
runner `generateTerraformCmdRun`.

Modelling choices:
* Go errors are values of `GoErr`; `os.IsExist` classification is the
  `isExist` field.
* A fetcher's `FetchData(ctx)` call is modelled by its outcome, a Go-style
  pair `(importDataList, error)`; the context argument carries no semantics
  used by this core and is dropped.
* The filesystem is an explicit state `FSState` (created directories with
  their permission bits, and files as a path-to-content association list);
  the outcomes of the fallible OS calls (`os.MkdirAll`, `os.Create`,
  `WriteString`) are supplied by an oracle `FSOracle`, so that both the
  success paths and every error path of the Go code are reachable.
* Go's `text/template` execution of the fixed import-file template is
  modelled by the parsed form of that template (a list of text, field and
  range nodes) and a substitution function `execTemplate`.
-/

namespace Auth0Terraform

/-- Modelled from the spec (§3 Data Model): one `importData` record, whose Go
struct definition lives outside the analysed file; the field names `ImportID`
and `ResourceName` are those referenced by the template in
`createImportFile`. -/
structure ImportData where
  ImportID : String
  ResourceName : String
deriving DecidableEq

/-- Go's `importDataList` type: an ordered list of records. -/
abbrev ImportDataList := List ImportData

/-- A Go error value. `msg` is the `Error()` string; `isExist` is whether
`os.IsExist` reports true on it (false for `errors.New` errors). -/
structure GoErr where
  isExist : Bool
  msg : String
deriving DecidableEq

/-- The outcome of one fetcher's `FetchData(ctx)` call, as the Go pair
`(importDataList, error)`. -/
abbrev FetchResult := ImportDataList × Option GoErr

/-- Loop body of `fetchImportData`: `importData` is the accumulator the Go
loop appends to; on the first fetcher error the function returns `(nil, err)`. -/
def fetchImportDataLoop (importData : ImportDataList) :
    List FetchResult → ImportDataList × Option GoErr
  | [] => (importData, none)
  | r :: rest =>
      match r.2 with
      | some err => ([], some err)
      | none => fetchImportDataLoop (importData ++ r.1) rest

/-- Go `fetchImportData(ctx, fetchers...)`: starts from the nil list and runs
the loop over the fetchers' outcomes. -/
def fetchImportData (fetchers : List FetchResult) : ImportDataList × Option GoErr :=
  fetchImportDataLoop [] fetchers

/-- Helper: running the loop over all-successful outcomes appends their record
lists, in order, to the accumulator, and reports no error. -/
theorem fetchImportDataLoop_all_ok (rs : List FetchResult) (acc : ImportDataList)
    (h : ∀ r ∈ rs, r.2 = none) :
    fetchImportDataLoop acc rs = (acc ++ (rs.map Prod.fst).flatten, none) := by
  induction rs generalizing acc with
  | nil => simp [fetchImportDataLoop]
  | cons r rest ih =>
      have hr : r.2 = none := h r (List.mem_cons_self r rest)
      rw [fetchImportDataLoop, hr]
      rw [ih (acc ++ r.1) (fun x hx => h x (List.mem_cons_of_mem r hx))]
      simp

/-- Helper: if every outcome before position `i` is a success and the outcome
at `i` is an error, the loop returns `(nil, that error)` whatever the
accumulator holds. -/
theorem fetchImportDataLoop_first_error (pre post : List FetchResult)
    (r : FetchResult) (e : GoErr) (acc : ImportDataList)
    (hpre : ∀ x ∈ pre, x.2 = none) (hr : r.2 = some e) :
    fetchImportDataLoop acc (pre ++ r :: post) = ([], some e) := by
  induction pre generalizing acc with
  | nil => rw [List.nil_append, fetchImportDataLoop, hr]
  | cons p rest ih =>
      have hp : p.2 = none := hpre p (List.mem_cons_self p rest)
      rw [List.cons_append, fetchImportDataLoop, hp]
      exact ih (acc ++ p.1) (fun x hx => hpre x (List.mem_cons_of_mem p hx))

/-- C3: if some fetcher's `FetchData` returns an error — the first one to do
so, every fetcher before it having succeeded — then `fetchImportData` returns
that same error together with the nil result list, discarding all records the
earlier fetchers returned. -/
theorem fetchImportData_error (pre post : List FetchResult) (r : FetchResult)
    (e : GoErr) (hpre : ∀ x ∈ pre, x.2 = none) (hr : r.2 = some e) :
    fetchImportData (pre ++ r :: post) = ([], some e) :=
  fetchImportDataLoop_first_error pre post r e [] hpre hr

/-- C3 witness: two successful fetchers followed by a failing one — the
records of the first two are discarded and the error is returned. -/
theorem fetchImportData_error_witness :
    fetchImportData
      [([⟨"id1", "auth0_client.a"⟩], none), ([⟨"id2", "auth0_client.b"⟩], none),
       ([], some ⟨false, "network down"⟩)] = ([], some ⟨false, "network down"⟩) :=
  fetchImportData_error
    [([⟨"id1", "auth0_client.a"⟩], none), ([⟨"id2", "auth0_client.b"⟩], none)]
    [] ([], some ⟨false, "network down"⟩) ⟨false, "network down"⟩
    (by intro x hx; fin_cases hx <;> rfl) rfl

/-- C4: if every fetcher succeeds, `fetchImportData` returns the concatenation
of the fetchers' record lists in fetcher order, each fetcher's records kept in
the order that fetcher returned them, and no error; a fetcher returning zero
records contributes nothing and causes no error. -/
theorem fetchImportData_all_ok (rs : List FetchResult)
    (h : ∀ r ∈ rs, r.2 = none) :
    fetchImportData rs = ((rs.map Prod.fst).flatten, none) := by
  rw [fetchImportData, fetchImportDataLoop_all_ok rs [] h, List.nil_append]

/-- C4 witness: three successful fetchers, the middle one with zero records —
the result is their concatenation in order with no error. -/
theorem fetchImportData_all_ok_witness :
    fetchImportData
      [([⟨"id1", "auth0_client.a"⟩, ⟨"id2", "auth0_client.b"⟩], none),
       ([], none), ([⟨"id3", "auth0_client.c"⟩], none)] =
      ([⟨"id1", "auth0_client.a"⟩, ⟨"id2", "auth0_client.b"⟩,
        ⟨"id3", "auth0_client.c"⟩], none) := by
  have h := fetchImportData_all_ok
    [([⟨"id1", "auth0_client.a"⟩, ⟨"id2", "auth0_client.b"⟩], none),
     ([], none), ([⟨"id3", "auth0_client.c"⟩], none)]
    (by intro x hx; fin_cases hx <;> rfl)
  simpa using h

/-- A node of the body of the template's range action: literal text, or one of
the two field substitutions the template uses. -/
inductive BodyNode where
  | text (s : String)
  | fieldImportID
  | fieldResourceName
deriving DecidableEq

/-- A top-level node of the parsed template: literal text, or the single
range-over-dot action whose body is executed once per record. -/
inductive TopNode where
  | text (s : String)
  | rangeDot (body : List BodyNode)
deriving DecidableEq

/-- Substitution of one body node against the current record. -/
def execBodyNode (r : ImportData) : BodyNode → String
  | .text s => s
  | .fieldImportID => r.ImportID
  | .fieldResourceName => r.ResourceName

/-- Execution of the range body against one record: concatenation of its
nodes' substitutions. -/
def execBody (r : ImportData) : List BodyNode → String
  | [] => ""
  | n :: rest => execBodyNode r n ++ execBody r rest

/-- Execution of a range action: the body is executed once per record of the
list, in list order, and the outputs are concatenated. -/
def execRange (body : List BodyNode) : ImportDataList → String
  | [] => ""
  | r :: rest => execBody r body ++ execRange body rest

/-- Execution of a whole parsed template against the record list. -/
def execTemplate (data : ImportDataList) : List TopNode → String
  | [] => ""
  | .text s :: rest => s ++ execTemplate data rest
  | .rangeDot body :: rest => execRange body data ++ execTemplate data rest

/-- The fixed header comment of `auth0_import.tf`, the text preceding the
range action in the template literal of `createImportFile`. -/
def importFileHeader : String :=
  "# This file is automatically generated via the Auth0 CLI.\n# It can be safely removed after the successful generation\n# of Terraform resource definition files.\n"

/-- The parsed form of the fixed template literal of `createImportFile`:
header text, then the range action whose body is the newline that opens a
blank line, the literal `import \x7b` opener with the quoted `id =` field, the
unquoted `to =` field, and the closing `\x7d`, then the trailing newline after
the `end` action. -/
def importFileTemplate : List TopNode :=
  [.text importFileHeader,
   .rangeDot
     [.text "\nimport \x7b\n  id = \"", .fieldImportID,
      .text "\"\n  to = ", .fieldResourceName, .text "\n\x7d\n"],
   .text "\n"]

/-- The full content `createImportFile` writes: the fixed template executed
against the record list. -/
def createImportFileContent (data : ImportDataList) : String :=
  execTemplate data importFileTemplate

/-- Written from the spec's words, for comparison with the code's template:
one import block, preceded by its blank line, whose `id` is the record's
ImportID quoted as a string literal and whose `to` is the record's
ResourceName unquoted. -/
def specImportBlock (r : ImportData) : String :=
  "\nimport \x7b\n  id = \"" ++ r.ImportID ++ "\"\n  to = " ++ r.ResourceName ++ "\n\x7d\n"

/-- Helper: joining a cons of strings prepends the head. -/
theorem string_join_cons (s : String) (l : List String) :
    String.join (s :: l) = s ++ String.join l := by
  apply String.ext
  simp [String.join_eq]

/-- Helper: a range execution is the join of the per-record body outputs. -/
theorem execRange_eq_join (body : List BodyNode) (data : ImportDataList) :
    execRange body data = String.join (data.map (fun r => execBody r body)) := by
  induction data with
  | nil => simp [execRange, String.join]
  | cons r rest ih => rw [execRange, ih, List.map_cons, string_join_cons]

/-- C1: for every record list with at least one record, the import-file
content is the fixed header followed by one spec-shaped import block per
record, joined in input-list order, plus the template's trailing newline; the
number of blocks equals the number of records, each block quotes its record's
ImportID, emits its ResourceName unquoted, and opens with the newline that
puts one blank line before each `import` keyword. -/
theorem createImportFileContent_blocks (data : ImportDataList)
    (_h : 1 ≤ data.length) :
    createImportFileContent data =
      importFileHeader ++ String.join (data.map specImportBlock) ++ "\n" ∧
    (data.map specImportBlock).length = data.length := by
  refine ⟨?_, by simp⟩
  have hblock : ∀ r : ImportData,
      execBody r
        [.text "\nimport \x7b\n  id = \"", .fieldImportID,
         .text "\"\n  to = ", .fieldResourceName, .text "\n\x7d\n"] =
      specImportBlock r := by
    intro r
    simp [execBody, execBodyNode, specImportBlock, String.append_assoc]
  rw [createImportFileContent, importFileTemplate, execTemplate, execTemplate,
    execTemplate, execTemplate, execRange_eq_join]
  simp only [hblock]
  rw [String.append_assoc]
  simp

/-- C1 witness: a two-record list yields the header, the two blocks in order,
and the trailing newline. -/
theorem createImportFileContent_blocks_witness :
    createImportFileContent
        [⟨"id1", "auth0_client.a"⟩, ⟨"id2", "auth0_client.b"⟩] =
      importFileHeader ++
        String.join
          [specImportBlock ⟨"id1", "auth0_client.a"⟩,
           specImportBlock ⟨"id2", "auth0_client.b"⟩] ++ "\n" ∧
    ([⟨"id1", "auth0_client.a"⟩, ⟨"id2", "auth0_client.b"⟩].map
        specImportBlock).length =
      [(⟨"id1", "auth0_client.a"⟩ : ImportData), ⟨"id2", "auth0_client.b"⟩].length := by
  have h := createImportFileContent_blocks
    [⟨"id1", "auth0_client.a"⟩, ⟨"id2", "auth0_client.b"⟩] (by decide)
  simpa using h

set_option maxRecDepth 100000 in
/-- C6: for the single record with ImportID `auth0|123` and ResourceName
`auth0_client.my_app`, the generated import-file content is exactly the fixed
header comment followed by the one `import` block — the brace-delimited block
with the quoted id and the unquoted resource address — and nothing else beyond
the blank-line structure the template mandates around it (the blank line
before the `import` keyword and the trailing newline after the block). -/
theorem createImportFileContent_single :
    createImportFileContent [⟨"auth0|123", "auth0_client.my_app"⟩] =
      "# This file is automatically generated via the Auth0 CLI.\n# It can be safely removed after the successful generation\n# of Terraform resource definition files.\n\nimport \x7b\n  id = \"auth0|123\"\n  to = auth0_client.my_app\n\x7d\n\n" := by
  decide

/-- Model of Go `path.Join(dir, name)` as used here: the two segments joined
by a slash. (Go's `path.Join` also cleans the result; no claim depends on
cleaning, and both generated file paths share the same directory argument.) -/
def pathJoin (dir name : String) : String :=
  dir ++ "/" ++ name

/-- The path of the generated `main.tf`, as computed in `createMainFile`. -/
def mainFilePath (outputDIR : String) : String :=
  pathJoin outputDIR "main.tf"

/-- The path of the generated `auth0_import.tf`, as computed in
`createImportFile`. -/
def importFilePath (outputDIR : String) : String :=
  pathJoin outputDIR "auth0_import.tf"

/-- Filesystem state: the directories recorded as created (with the
permission bits they were ensured with) and the files as a path-to-content
association list (most recent entry first). -/
structure FSState where
  dirs : List (String × Nat)
  files : List (String × String)
deriving DecidableEq

/-- Outcomes of the fallible OS calls, keyed by path: `none` means the call
succeeds, `some e` that it fails with the Go error `e`. -/
structure FSOracle where
  mkdirAllErr : String → Option GoErr
  createErr : String → Option GoErr
  writeErr : String → Option GoErr

/-- Set (or truncate) the file at `p` to content `c`. -/
def setFile (files : List (String × String)) (p c : String) : List (String × String) :=
  (p, c) :: files.filter (fun e => e.1 != p)

/-- Current content of the file at `p` (empty if absent). -/
def lookupContent (files : List (String × String)) (p : String) : String :=
  (files.lookup p).getD ""

/-- Split a character list at every `/`. -/
def splitPath : List Char → List (List Char)
  | [] => [[]]
  | c :: rest =>
      if c = '/' then [] :: splitPath rest
      else
        match splitPath rest with
        | [] => [[c]]
        | s :: ss => (c :: s) :: ss

/-- Every `/`-separated ancestor prefix of a path, the path itself last:
the directories `os.MkdirAll` ensures exist. -/
def ancestorPaths (p : String) : List String :=
  (List.range (splitPath p.data).length).map
    (fun i => ⟨List.intercalate ['/'] ((splitPath p.data).take (i + 1))⟩)

/-- Model of `os.MkdirAll(p, perm)`: on success it records the directory and
every missing parent as created with `perm`; on failure the state is
untouched. -/
def osMkdirAll (o : FSOracle) (p : String) (perm : Nat) (fs : FSState) :
    Option GoErr × FSState :=
  match o.mkdirAllErr p with
  | some e => (some e, fs)
  | none => (none, ⟨(ancestorPaths p).map (fun q => (q, perm)) ++ fs.dirs, fs.files⟩)

/-- Model of `os.Create(p)`: on success the file at `p` exists and is
truncated to empty. -/
def osCreate (o : FSOracle) (p : String) (fs : FSState) : Option GoErr × FSState :=
  match o.createErr p with
  | some e => (some e, fs)
  | none => (none, ⟨fs.dirs, setFile fs.files p ""⟩)

/-- Model of `file.WriteString(s)` on the open file at `p`: on success `s` is
appended to the file's current content. -/
def osWriteString (o : FSOracle) (p s : String) (fs : FSState) :
    Option GoErr × FSState :=
  match o.writeErr p with
  | some e => (some e, fs)
  | none => (none, ⟨fs.dirs, setFile fs.files p (lookupContent fs.files p ++ s)⟩)

/-- The fixed content of `main.tf`, the raw literal in `createMainFile`. -/
def mainFileContent : String :=
  "terraform \x7b\n  required_version = \"~> 1.5.0\"\n  required_providers \x7b\n    auth0 = \x7b\n      source  = \"auth0/auth0\"\n      version = \"1.0.0-beta.1\"\n    \x7d\n  \x7d\n\x7d\n\nprovider \"auth0\" \x7b\n  debug = true\n\x7d\n"

/-- Go `createMainFile(outputDIR)`: create `main.tf` in the directory and
write the fixed content, surfacing the first create or write error. -/
def createMainFile (o : FSOracle) (outputDIR : String) (fs : FSState) :
    Option GoErr × FSState :=
  match osCreate o (mainFilePath outputDIR) fs with
  | (some e, fs1) => (some e, fs1)
  | (none, fs1) => osWriteString o (mainFilePath outputDIR) mainFileContent fs1

/-- Go `createImportFile(outputDIR, data)`: create `auth0_import.tf` and
execute the fixed template against `data` into it. Parsing the fixed template
literal deterministically succeeds with the parsed form `importFileTemplate`,
so the fallible steps are the create and the write performed by `Execute`;
their errors are surfaced. -/
def createImportFile (o : FSOracle) (outputDIR : String) (data : ImportDataList)
    (fs : FSState) : Option GoErr × FSState :=
  match osCreate o (importFilePath outputDIR) fs with
  | (some e, fs1) => (some e, fs1)
  | (none, fs1) =>
      osWriteString o (importFilePath outputDIR) (createImportFileContent data) fs1

/-- The error `errors.New("no import data available")` returned on an empty
list. -/
def noImportDataErr : GoErr :=
  ⟨false, "no import data available"⟩

/-- The permission constant `readWritePermission = 0755` of
`generateTerraformConfigFiles`. -/
def readWritePermission : Nat :=
  0o755

/-- The tail of `generateTerraformConfigFiles` after the directory step:
write `main.tf`, then on success write `auth0_import.tf`. -/
def createConfigFilesAfterDir (o : FSOracle) (outputDIR : String)
    (data : ImportDataList) (fs : FSState) : Option GoErr × FSState :=
  match createMainFile o outputDIR fs with
  | (some e, fs1) => (some e, fs1)
  | (none, fs1) => createImportFile o outputDIR data fs1

/-- Go `generateTerraformConfigFiles(outputDIR, data)`: fail on an empty
list; ensure the output directory exists with mode 0755, tolerating an
`os.IsExist` error; then write the two files. -/
def generateTerraformConfigFiles (o : FSOracle) (outputDIR : String)
    (data : ImportDataList) (fs : FSState) : Option GoErr × FSState :=
  if data.length == 0 then (some noImportDataErr, fs)
  else
    match osMkdirAll o outputDIR readWritePermission fs with
    | (some e, fs1) =>
        if !e.isExist then (some e, fs1)
        else createConfigFilesAfterDir o outputDIR data fs1
    | (none, fs1) => createConfigFilesAfterDir o outputDIR data fs1

/-- The first renderer message of a successful run. -/
def successMessage : String :=
  "Terraform config files generated successfully."

/-- The second renderer message of a successful run. -/
def quickstartMessage : String :=
  "Follow this [quickstart](https://registry.terraform.io/providers/auth0/auth0/latest/docs/guides/quickstart) to go through setting up an Auth0 application for the provider to authenticate against and manage resources."

/-- Go `generateTerraformCmdRun(cli, inputs)`'s returned closure: aggregate
the fetchers' data, return the first error with nothing generated; otherwise
generate the config files, returning their error; on full success render the
two informational messages and return nil. The result is the returned error,
the filesystem state, and the rendered messages. -/
def generateTerraformCmdRun (fetchers : List FetchResult) (o : FSOracle)
    (outputDIR : String) (fs : FSState) : Option GoErr × FSState × List String :=
  match fetchImportData fetchers with
  | (_, some e) => (some e, fs, [])
  | (data, none) =>
      match generateTerraformConfigFiles o outputDIR data fs with
      | (some e, fs1) => (some e, fs1, [])
      | (none, fs1) => (none, fs1, [successMessage, quickstartMessage])

/-- Helper: the two generated file paths under one directory differ. -/
theorem mainFilePath_ne_importFilePath (dir : String) :
    mainFilePath dir ≠ importFilePath dir := by
  intro h
  have hl := congrArg String.length h
  rw [mainFilePath, importFilePath, pathJoin, pathJoin,
    String.length_append, String.length_append,
    String.length_append, String.length_append] at hl
  have h1 : ("main.tf" : String).length = 7 := rfl
  have h2 : ("auth0_import.tf" : String).length = 15 := rfl
  rw [h1, h2] at hl
  omega

/-- Helper: filtering out another key leaves a lookup unchanged. -/
theorem lookup_filter_keyne (files : List (String × String)) (p q : String)
    (h : q ≠ p) :
    (files.filter (fun e => e.1 != p)).lookup q = files.lookup q := by
  induction files with
  | nil => rfl
  | cons x rest ih =>
      by_cases hx : x.1 = p
      · have hqp : (q == p) = false := by simpa using h
        have hq : (q == x.1) = false := by rw [hx]; exact hqp
        have hx' : (x.1 != p) = false := by simp [hx]
        simp [List.filter_cons, hx', List.lookup, hq, ih]
      · simp only [List.filter_cons]
        have hx' : (x.1 != p) = true := by simpa using hx
        rw [hx']
        simp only [if_true, List.lookup]
        cases hqx : q == x.1 <;> simp [ih]

/-- Helper: a fresh `setFile` wins the lookup at its own path. -/
theorem lookup_setFile_self (files : List (String × String)) (p c : String) :
    (setFile files p c).lookup p = some c := by
  simp [setFile, List.lookup]

/-- Helper: `setFile` at another path leaves a lookup unchanged. -/
theorem lookup_setFile_ne (files : List (String × String)) (p q c : String)
    (h : q ≠ p) :
    (setFile files p c).lookup q = files.lookup q := by
  have hq : (q == p) = false := by simpa using h
  simp [setFile, List.lookup, hq, lookup_filter_keyne files p q h]

/-- Helper: overwriting a path twice keeps only the second content. -/
theorem setFile_setFile (files : List (String × String)) (p c₁ c₂ : String) :
    setFile (setFile files p c₁) p c₂ = setFile files p c₂ := by
  simp [setFile, List.filter_filter]

/-- Helper: content after `setFile` at the same path. -/
theorem lookupContent_setFile_self (files : List (String × String)) (p c : String) :
    lookupContent (setFile files p c) p = c := by
  simp [lookupContent, lookup_setFile_self]

/-- Helper: when its create and write succeed, `createMainFile` writes exactly
the fixed content at the main path and touches nothing else. -/
theorem createMainFile_success_state (o : FSOracle) (dir : String) (fs : FSState)
    (hc : o.createErr (mainFilePath dir) = none)
    (hw : o.writeErr (mainFilePath dir) = none) :
    createMainFile o dir fs =
      (none, ⟨fs.dirs, setFile fs.files (mainFilePath dir) mainFileContent⟩) := by
  simp only [createMainFile, osCreate, hc, osWriteString, hw,
    lookupContent_setFile_self, setFile_setFile]
  rfl

/-- Helper: when its create and write succeed, `createImportFile` writes
exactly the rendered template at the import path and touches nothing else. -/
theorem createImportFile_success_state (o : FSOracle) (dir : String)
    (data : ImportDataList) (fs : FSState)
    (hc : o.createErr (importFilePath dir) = none)
    (hw : o.writeErr (importFilePath dir) = none) :
    createImportFile o dir data fs =
      (none,
       ⟨fs.dirs, setFile fs.files (importFilePath dir) (createImportFileContent data)⟩) := by
  simp only [createImportFile, osCreate, hc, osWriteString, hw,
    lookupContent_setFile_self, setFile_setFile]
  rfl

/-- Helper: the file-writing tail never changes the recorded directories. -/
theorem createConfigFilesAfterDir_dirs (o : FSOracle) (dir : String)
    (data : ImportDataList) (fs : FSState) :
    ((createConfigFilesAfterDir o dir data fs).2).dirs = fs.dirs := by
  cases hc1 : o.createErr (mainFilePath dir) <;>
    cases hw1 : o.writeErr (mainFilePath dir) <;>
    cases hc2 : o.createErr (importFilePath dir) <;>
    cases hw2 : o.writeErr (importFilePath dir) <;>
    simp [createConfigFilesAfterDir, createMainFile, createImportFile,
      osCreate, osWriteString, hc1, hw1, hc2, hw2]

/-- Helper: a successful run of the file-writing tail leaves exactly the two
file writes on top of the starting files. -/
theorem createConfigFilesAfterDir_success_files (o : FSOracle) (dir : String)
    (data : ImportDataList) (fs : FSState)
    (hsucc : (createConfigFilesAfterDir o dir data fs).1 = none) :
    ((createConfigFilesAfterDir o dir data fs).2).files =
      setFile (setFile fs.files (mainFilePath dir) mainFileContent)
        (importFilePath dir) (createImportFileContent data) := by
  cases hc1 : o.createErr (mainFilePath dir) with
  | some e =>
      simp [createConfigFilesAfterDir, createMainFile, osCreate, hc1] at hsucc
  | none =>
  cases hw1 : o.writeErr (mainFilePath dir) with
  | some e =>
      simp [createConfigFilesAfterDir, createMainFile, osCreate, osWriteString,
        hc1, hw1] at hsucc
  | none =>
  cases hc2 : o.createErr (importFilePath dir) with
  | some e =>
      simp [createConfigFilesAfterDir, createMainFile_success_state o dir fs hc1 hw1,
        createImportFile, osCreate, hc2] at hsucc
  | none =>
  cases hw2 : o.writeErr (importFilePath dir) with
  | some e =>
      simp [createConfigFilesAfterDir, createMainFile_success_state o dir fs hc1 hw1,
        createImportFile, osCreate, osWriteString, hc2, hw2] at hsucc
  | none =>
      have hmain := createMainFile_success_state o dir fs hc1 hw1
      have himp := createImportFile_success_state o dir data
        ⟨fs.dirs, setFile fs.files (mainFilePath dir) mainFileContent⟩ hc2 hw2
      simp only [createConfigFilesAfterDir, hmain, himp]

/-- Helper: a successful full generation leaves exactly the two file writes on
top of the starting files. -/
theorem generateConfigFiles_success_files (o : FSOracle) (dir : String)
    (data : ImportDataList) (fs : FSState) (hdata : data.length ≠ 0)
    (hsucc : (generateTerraformConfigFiles o dir data fs).1 = none) :
    ((generateTerraformConfigFiles o dir data fs).2).files =
      setFile (setFile fs.files (mainFilePath dir) mainFileContent)
        (importFilePath dir) (createImportFileContent data) := by
  have h0 : (data.length == 0) = false := by simpa using hdata
  cases hm : o.mkdirAllErr dir with
  | some e =>
      cases hei : e.isExist with
      | false =>
          simp [generateTerraformConfigFiles, h0, osMkdirAll, hm, hei] at hsucc
      | true =>
          rw [generateTerraformConfigFiles] at hsucc ⊢
          simp only [h0, Bool.false_eq_true, if_false, osMkdirAll, hm, hei,
            Bool.not_true, if_false] at hsucc ⊢
          exact createConfigFilesAfterDir_success_files o dir data fs hsucc
  | none =>
      rw [generateTerraformConfigFiles] at hsucc ⊢
      simp only [h0, Bool.false_eq_true, if_false, osMkdirAll, hm] at hsucc ⊢
      exact createConfigFilesAfterDir_success_files o dir data _ hsucc

/-- C2: for the empty import list, `generateTerraformConfigFiles` returns the
explicit `no import data available` error, and `auth0_import.tf` is not
created — the lookup at the import-file path is exactly what it was before the
call, the error path running before any import-file write. -/
theorem generateConfigFiles_empty_error (o : FSOracle) (dir : String)
    (fs : FSState) :
    (generateTerraformConfigFiles o dir [] fs).1 = some noImportDataErr ∧
    ((generateTerraformConfigFiles o dir [] fs).2).files.lookup (importFilePath dir) =
      fs.files.lookup (importFilePath dir) :=
  ⟨rfl, rfl⟩

/-- C10: for the empty import list, `generateTerraformConfigFiles` performs no
filesystem mutation at all before returning the error: the whole state —
directories included, so the output directory is not created, and neither
`main.tf` nor `auth0_import.tf` is touched — is returned unchanged. -/
theorem generateConfigFiles_empty_no_mutation (o : FSOracle) (dir : String)
    (fs : FSState) :
    generateTerraformConfigFiles o dir [] fs = (some noImportDataErr, fs) :=
  rfl

/-- C5: for every non-empty import list and output directory, a successful run
of `generateTerraformConfigFiles` produces exactly two files there — `main.tf`
holding the fixed static declaration text `mainFileContent`, a constant
independent of the import data, and `auth0_import.tf` holding the rendered
blocks — and every other path is untouched. -/
theorem generateConfigFiles_success_two_files (o : FSOracle) (dir : String)
    (data : ImportDataList) (fs : FSState) (hdata : data ≠ [])
    (hsucc : (generateTerraformConfigFiles o dir data fs).1 = none) :
    ((generateTerraformConfigFiles o dir data fs).2).files.lookup (mainFilePath dir) =
      some mainFileContent ∧
    ((generateTerraformConfigFiles o dir data fs).2).files.lookup (importFilePath dir) =
      some (createImportFileContent data) ∧
    ∀ p, p ≠ mainFilePath dir → p ≠ importFilePath dir →
      ((generateTerraformConfigFiles o dir data fs).2).files.lookup p =
        fs.files.lookup p := by
  have hlen : data.length ≠ 0 := fun h => hdata (List.length_eq_zero.mp h)
  have hfiles := generateConfigFiles_success_files o dir data fs hlen hsucc
  rw [hfiles]
  refine ⟨?_, lookup_setFile_self _ _ _, ?_⟩
  · rw [lookup_setFile_ne _ _ _ _ (mainFilePath_ne_importFilePath dir)]
    exact lookup_setFile_self _ _ _
  · intro p hp1 hp2
    rw [lookup_setFile_ne _ _ _ _ hp2, lookup_setFile_ne _ _ _ _ hp1]

/-- C7: for every output directory and non-empty import list, the directory
step of `generateTerraformConfigFiles` ensures the directory and every missing
parent exist with mode 0755 (`readWritePermission = 0o755 = 493`); an
`IsExist` failure — a pre-existing directory — is treated as success and
generation proceeds with the remaining steps, while any other
directory-creation failure aborts with that error before any file is
written (the state comes back unchanged). -/
theorem generateConfigFiles_mkdir (o : FSOracle) (dir : String)
    (data : ImportDataList) (fs : FSState) (hdata : data ≠ []) :
    (∀ e, o.mkdirAllErr dir = some e → e.isExist = false →
      generateTerraformConfigFiles o dir data fs = (some e, fs)) ∧
    (∀ e, o.mkdirAllErr dir = some e → e.isExist = true →
      generateTerraformConfigFiles o dir data fs =
        createConfigFilesAfterDir o dir data fs) ∧
    (o.mkdirAllErr dir = none →
      ∀ q ∈ ancestorPaths dir,
        (q, readWritePermission) ∈
          ((generateTerraformConfigFiles o dir data fs).2).dirs) ∧
    readWritePermission = 0o755 := by
  have hlen : data.length ≠ 0 := fun h => hdata (List.length_eq_zero.mp h)
  have h0 : (data.length == 0) = false := by simpa using hlen
  refine ⟨?_, ?_, ?_, rfl⟩
  · intro e hm hei
    simp [generateTerraformConfigFiles, h0, osMkdirAll, hm, hei]
  · intro e hm hei
    simp [generateTerraformConfigFiles, h0, osMkdirAll, hm, hei]
  · intro hm q hq
    rw [generateTerraformConfigFiles]
    simp only [h0, Bool.false_eq_true, if_false, osMkdirAll, hm]
    rw [createConfigFilesAfterDir_dirs]
    exact List.mem_append_left _
      (List.mem_map_of_mem (fun x => (x, readWritePermission)) hq)

/-- C8: for a non-empty list with the directory step passing, a failing create
or write at either file makes `generateTerraformConfigFiles` return that
underlying error unmodified: a failed `main.tf` create leaves the files
untouched, a failed `main.tf` write surfaces the error, and when
`auth0_import.tf` fails — at create or at the write `Execute` performs —
after `main.tf` was already written, the error is returned while `main.tf` is
left in place with its full content: no rollback. -/
theorem generateConfigFiles_io_errors (o : FSOracle) (dir : String)
    (data : ImportDataList) (fs : FSState) (hdata : data ≠ [])
    (hm : o.mkdirAllErr dir = none) :
    (∀ e, o.createErr (mainFilePath dir) = some e →
      (generateTerraformConfigFiles o dir data fs).1 = some e ∧
      ((generateTerraformConfigFiles o dir data fs).2).files = fs.files) ∧
    (∀ e, o.createErr (mainFilePath dir) = none →
      o.writeErr (mainFilePath dir) = some e →
      (generateTerraformConfigFiles o dir data fs).1 = some e) ∧
    (∀ e, o.createErr (mainFilePath dir) = none →
      o.writeErr (mainFilePath dir) = none →
      o.createErr (importFilePath dir) = some e →
      (generateTerraformConfigFiles o dir data fs).1 = some e ∧
      ((generateTerraformConfigFiles o dir data fs).2).files.lookup (mainFilePath dir) =
        some mainFileContent) ∧
    (∀ e, o.createErr (mainFilePath dir) = none →
      o.writeErr (mainFilePath dir) = none →
      o.createErr (importFilePath dir) = none →
      o.writeErr (importFilePath dir) = some e →
      (generateTerraformConfigFiles o dir data fs).1 = some e ∧
      ((generateTerraformConfigFiles o dir data fs).2).files.lookup (mainFilePath dir) =
        some mainFileContent) := by
  have hlen : data.length ≠ 0 := fun h => hdata (List.length_eq_zero.mp h)
  have h0 : (data.length == 0) = false := by simpa using hlen
  have hstep : generateTerraformConfigFiles o dir data fs =
      createConfigFilesAfterDir o dir data
        ⟨(ancestorPaths dir).map (fun q => (q, readWritePermission)) ++ fs.dirs,
         fs.files⟩ := by
    rw [generateTerraformConfigFiles]
    simp only [h0, Bool.false_eq_true, if_false, osMkdirAll, hm]
  refine ⟨?_, ?_, ?_, ?_⟩
  · intro e hc1
    rw [hstep]
    simp [createConfigFilesAfterDir, createMainFile, osCreate, hc1]
  · intro e hc1 hw1
    rw [hstep]
    simp [createConfigFilesAfterDir, createMainFile, osCreate, osWriteString,
      hc1, hw1]
  · intro e hc1 hw1 hc2
    rw [hstep]
    have hmain := createMainFile_success_state o dir
      ⟨(ancestorPaths dir).map (fun q => (q, readWritePermission)) ++ fs.dirs,
       fs.files⟩ hc1 hw1
    simp only [createConfigFilesAfterDir, hmain, createImportFile, osCreate, hc2]
    exact ⟨trivial, lookup_setFile_self _ _ _⟩
  · intro e hc1 hw1 hc2 hw2
    rw [hstep]
    have hmain := createMainFile_success_state o dir
      ⟨(ancestorPaths dir).map (fun q => (q, readWritePermission)) ++ fs.dirs,
       fs.files⟩ hc1 hw1
    simp only [createConfigFilesAfterDir, hmain, createImportFile, osCreate, hc2,
      osWriteString, hw2]
    refine ⟨trivial, ?_⟩
    rw [lookup_setFile_ne _ _ _ _ (mainFilePath_ne_importFilePath dir)]
    exact lookup_setFile_self _ _ _

/-- C9: the `generate` command runner returns the underlying error whenever
aggregation or generation fails — on an aggregation error the generator is
never invoked, the filesystem state coming back untouched — and it returns nil
with the confirmation messages rendered exactly when both the fetch
aggregation and the file generation succeed. -/
theorem generateCmdRun_exit (rs : List FetchResult) (o : FSOracle)
    (dir : String) (fs : FSState) :
    (∀ e, (fetchImportData rs).2 = some e →
      generateTerraformCmdRun rs o dir fs = (some e, fs, [])) ∧
    (∀ e, (fetchImportData rs).2 = none →
      (generateTerraformConfigFiles o dir (fetchImportData rs).1 fs).1 = some e →
      (generateTerraformCmdRun rs o dir fs).1 = some e ∧
      (generateTerraformCmdRun rs o dir fs).2.2 = []) ∧
    ((generateTerraformCmdRun rs o dir fs).1 = none ↔
      (fetchImportData rs).2 = none ∧
      (generateTerraformConfigFiles o dir (fetchImportData rs).1 fs).1 = none) ∧
    ((generateTerraformCmdRun rs o dir fs).1 = none →
      (generateTerraformCmdRun rs o dir fs).2.2 =
        [successMessage, quickstartMessage]) := by
  rcases hf : fetchImportData rs with ⟨d, err⟩
  cases err with
  | some e =>
      refine ⟨?_, ?_, ?_, ?_⟩ <;>
        simp [generateTerraformCmdRun, hf]
  | none =>
      rcases hg : generateTerraformConfigFiles o dir d fs with ⟨gerr, fs1⟩
      cases gerr with
      | some e' =>
          refine ⟨?_, ?_, ?_, ?_⟩ <;>
            simp [generateTerraformCmdRun, hf, hg]
      | none =>
          refine ⟨?_, ?_, ?_, ?_⟩ <;>
            simp [generateTerraformCmdRun, hf, hg]

/-- An oracle on which every OS call succeeds. -/
def okOracle : FSOracle :=
  ⟨fun _ => none, fun _ => none, fun _ => none⟩

/-- The empty starting filesystem. -/
def emptyFS : FSState :=
  ⟨[], []⟩

/-- The record of the spec's concrete scenario. -/
def sampleRecord : ImportData :=
  ⟨"auth0|123", "auth0_client.my_app"⟩

/-- An oracle whose `MkdirAll` fails with a non-`IsExist` error. -/
def mkdirFailOracle : FSOracle :=
  ⟨fun _ => some ⟨false, "permission denied"⟩, fun _ => none, fun _ => none⟩

/-- An oracle on which only creating `out/auth0_import.tf` fails. -/
def importCreateFailOracle : FSOracle :=
  ⟨fun _ => none,
   fun p => if p == importFilePath "out" then some ⟨false, "disk full"⟩ else none,
   fun _ => none⟩

/-- C5 witness: on an all-success oracle, an empty filesystem and one record,
the run succeeds and the two files hold exactly the expected contents. -/
theorem generateConfigFiles_success_two_files_witness :
    ((generateTerraformConfigFiles okOracle "out" [sampleRecord] emptyFS).2).files.lookup
        (mainFilePath "out") = some mainFileContent ∧
    ((generateTerraformConfigFiles okOracle "out" [sampleRecord] emptyFS).2).files.lookup
        (importFilePath "out") = some (createImportFileContent [sampleRecord]) := by
  have h := generateConfigFiles_success_two_files okOracle "out" [sampleRecord]
    emptyFS (by decide) rfl
  exact ⟨h.1, h.2.1⟩

/-- C7 witness: a non-`IsExist` mkdir failure aborts with that error and an
untouched state, while on success the directory `a/b` and its parent `a` are
recorded with mode 0755. -/
theorem generateConfigFiles_mkdir_witness :
    generateTerraformConfigFiles mkdirFailOracle "a/b" [sampleRecord] emptyFS =
      (some ⟨false, "permission denied"⟩, emptyFS) ∧
    ("a", readWritePermission) ∈
      ((generateTerraformConfigFiles okOracle "a/b" [sampleRecord] emptyFS).2).dirs ∧
    ("a/b", readWritePermission) ∈
      ((generateTerraformConfigFiles okOracle "a/b" [sampleRecord] emptyFS).2).dirs := by
  refine ⟨?_, ?_, ?_⟩
  · exact (generateConfigFiles_mkdir mkdirFailOracle "a/b" [sampleRecord] emptyFS
      (by decide)).1 ⟨false, "permission denied"⟩ rfl rfl
  · exact (generateConfigFiles_mkdir okOracle "a/b" [sampleRecord] emptyFS
      (by decide)).2.2.1 rfl "a" (by decide)
  · exact (generateConfigFiles_mkdir okOracle "a/b" [sampleRecord] emptyFS
      (by decide)).2.2.1 rfl "a/b" (by decide)

/-- C8 witness: when creating `auth0_import.tf` fails after `main.tf` was
written, the run returns that error and `main.tf` is left in place with the
fixed content. -/
theorem generateConfigFiles_io_errors_witness :
    (generateTerraformConfigFiles importCreateFailOracle "out" [sampleRecord]
        emptyFS).1 = some ⟨false, "disk full"⟩ ∧
    ((generateTerraformConfigFiles importCreateFailOracle "out" [sampleRecord]
        emptyFS).2).files.lookup (mainFilePath "out") = some mainFileContent := by
  exact (generateConfigFiles_io_errors importCreateFailOracle "out" [sampleRecord]
    emptyFS (by decide) rfl).2.2.1 ⟨false, "disk full"⟩ (by decide) rfl (by decide)

/-- C9 witness: a failing fetcher makes the command return its error with
nothing generated and no message, while an all-success run returns nil, the
generated state, and the two messages. -/
theorem generateCmdRun_exit_witness :
    generateTerraformCmdRun [([], some ⟨false, "boom"⟩)] okOracle "out" emptyFS =
      (some ⟨false, "boom"⟩, emptyFS, []) ∧
    (generateTerraformCmdRun [([sampleRecord], none)] okOracle "out" emptyFS).1 =
      none ∧
    (generateTerraformCmdRun [([sampleRecord], none)] okOracle "out" emptyFS).2.2 =
      [successMessage, quickstartMessage] := by
  refine ⟨?_, ?_, ?_⟩
  · exact (generateCmdRun_exit [([], some ⟨false, "boom"⟩)] okOracle "out"
      emptyFS).1 ⟨false, "boom"⟩ rfl
  · exact (generateCmdRun_exit [([sampleRecord], none)] okOracle "out"
      emptyFS).2.2.1.mpr ⟨rfl, rfl⟩
  · exact (generateCmdRun_exit [([sampleRecord], none)] okOracle "out"
      emptyFS).2.2.2 ((generateCmdRun_exit [([sampleRecord], none)] okOracle "out"
      emptyFS).2.2.1.mpr ⟨rfl, rfl⟩)

end Auth0Terraform
